import Mathlib

/-!
Shallow embedding of `src/js/menu/menu-item.js` (the `MenuItem` widget of the
video.js menu): a DOM element model, the renderer (`createEl`), the selection
state machine (`selected`), the constructor, and the input routing
(`handleKeyDown`, edit-button activation handlers), together with proofs of
the widget's specified properties.
-/

set_option maxRecDepth 100000

namespace VideoJs

/-- A leaf `<span>` DOM node as used by `menu-item.js`: every child the menu
item ever attaches is a span with a class name and a text content. -/
structure Span where
  className : String
  textContent : String
deriving DecidableEq

/-- The `<li>` DOM element owned by a `MenuItem` (`this.el_`): tag, class
list, attribute list (in insertion order), inline style, `tabIndex` property
and child spans. -/
structure El where
  tag : String
  classes : List String
  attrs : List (String × String)
  styleProp : String
  tabIndex : Option Int
  children : List Span
deriving DecidableEq

/-- Assoc-list update backing `Element.setAttribute`: overwrite an existing
attribute in place, else append it. -/
def setAttrList : List (String × String) → String → String → List (String × String)
  | [], n, v => [(n, v)]
  | (m, w) :: rest, n, v => if m = n then (n, v) :: rest else (m, w) :: setAttrList rest n v

/-- `Element.setAttribute`. -/
def setAttr (el : El) (n v : String) : El := { el with attrs := setAttrList el.attrs n v }

/-- Assoc-list lookup backing `Element.getAttribute`. -/
def getAttrList : List (String × String) → String → Option String
  | [], _ => none
  | (m, w) :: rest, n => if m = n then some w else getAttrList rest n

/-- `Element.getAttribute`. -/
def getAttr (el : El) (n : String) : Option String := getAttrList el.attrs n

/-- Modelled from the spec: the base control's CSS class add capability
(§6, `Component#addClass`, not under `src/`); DOM `classList` semantics,
no duplicate classes. -/
def addClass (el : El) (c : String) : El :=
  if c ∈ el.classes then el else { el with classes := el.classes ++ [c] }

/-- Modelled from the spec: the base control's CSS class remove capability
(§6, `Component#removeClass`, not under `src/`). -/
def removeClass (el : El) (c : String) : El :=
  { el with classes := el.classes.filter (fun d => d ≠ c) }

/-- Serialization of one child span, as it appears inside `outerHTML`. -/
def renderSpan (sp : Span) : String :=
  "<span class=\"" ++ sp.className ++ "\">" ++ sp.textContent ++ "</span>"

/-- Serialization of the child list. -/
def renderSpans : List Span → String
  | [] => ""
  | sp :: rest => renderSpan sp ++ renderSpans rest

/-- Serialization of the class list (inside the `class="..."` attribute). -/
def renderClasses : List String → String
  | [] => ""
  | c :: rest => " " ++ c ++ renderClasses rest

/-- Serialization of the attribute list. -/
def renderAttrs : List (String × String) → String
  | [] => ""
  | (n, v) :: rest => " " ++ n ++ "=\"" ++ v ++ "\"" ++ renderAttrs rest

/-- Serialization of the inline style, when present. -/
def renderStyle (s : String) : String := if s = "" then "" else " style=\"" ++ s ++ "\""

/-- Serialization of the `tabIndex` property, when present. -/
def renderTabIndex : Option Int → String
  | none => ""
  | some i => " tabindex=\"" ++ toString i ++ "\""

/-- Opening-tag part of the serialization of an element. -/
def outerPre (el : El) : String :=
  "<" ++ el.tag ++ " class=\"" ++ renderClasses el.classes ++ "\"" ++ renderAttrs el.attrs
    ++ renderStyle el.styleProp ++ renderTabIndex el.tabIndex ++ ">"

/-- Closing-tag part of the serialization of an element. -/
def outerPost (el : El) : String := "</" ++ el.tag ++ ">"

/-- `Element.outerHTML`: the full serialization of the element. -/
def outerHTML (el : El) : String := outerPre el ++ renderSpans el.children ++ outerPost el

/-- JS `String.prototype.includes`: substring test. -/
def strContains (s pat : String) : Bool := decide (pat.data <:+: s.data)

/-- JS `label.split('||')` on the character list: greedy left-to-right split
at every non-overlapping occurrence of the two-character separator. -/
def splitOnPipes : List Char → List (List Char)
  | [] => [[]]
  | '|' :: '|' :: rest => [] :: splitOnPipes rest
  | c :: rest =>
    match splitOnPipes rest with
    | [] => [[c]]
    | hd :: tl => (c :: hd) :: tl

/-- JS `String.prototype.split('||')`; the result is never the empty array. -/
def jsSplitPipes (s : String) : List String := (splitOnPipes s.data).map String.mk

/-- Whitespace characters stripped by JS `String.prototype.trim`
(the forms that can occur in a label: space, tab, newline, carriage return). -/
def isJsWhitespace (c : Char) : Bool := c == ' ' || c == '\t' || c == '\n' || c == '\r'

/-- Drop leading whitespace from a character list. -/
def dropLeadingWs : List Char → List Char
  | [] => []
  | c :: rest => if isJsWhitespace c then dropLeadingWs rest else c :: rest

/-- JS `String.prototype.trim`: strip leading and trailing whitespace. -/
def jsTrim (s : String) : String :=
  String.mk ((dropLeadingWs (dropLeadingWs s.data).reverse).reverse)

/-- Modelled from the spec: the localization lookup of the base control
(§6: `localize(text) -> text`, not under `src/`); labels are assumed supplied
pre-localized, so the lookup returns its input. -/
def localize (text : String) : String := text

/-- The generic icon placeholder child the base control puts into every
element it builds (§4.1: the text span replaces "a generic icon
placeholder"). -/
def iconPlaceholder : Span := ⟨"vjs-icon-placeholder", ""⟩

/-- Modelled from the spec: `super.createEl(tag, props, attrs)` of the base
interactive control (§6: "build a generic element with a tag, property map,
attribute map", not under `src/`), containing the generic icon placeholder
child (§4.1).  `className`, `styleProp` and `tabIndex` are the only
properties `menu-item.js` ever passes. -/
def superCreateEl (tag className styleProp : String) (tabIndex : Option Int) : El :=
  { tag := tag
    classes := if className = "" then [] else [className]
    attrs := []
    styleProp := styleProp
    tabIndex := tabIndex
    children := [iconPlaceholder] }

/-- The `window.Event('chapterEditEvent')` object together with its `data`
payload (`{chapter: chapterText}`). -/
structure ChapterEvent where
  name : String
  chapter : String
deriving DecidableEq

/-- Result of `MenuItem#createEl`: the built element, plus the event wired to
the edit button's `click` and `touchstart` listeners (`none` when the
empty-name branch returned early, before any listener was attached). -/
structure CreateElOut where
  el : El
  editWiring : Option ChapterEvent
deriving DecidableEq

/-- `el.replaceChild(textSpan, el.querySelector('.vjs-icon-placeholder'))`:
replace the first icon-placeholder child with the given span. -/
def replaceIconWithText (textSpan : Span) : List Span → List Span
  | [] => []
  | sp :: rest =>
    if sp.className = "vjs-icon-placeholder" then textSpan :: rest
    else sp :: replaceIconWithText textSpan rest

/-- `MenuItem#createEl` (menu-item.js, lines 64-111).  The constructor calls
it with no extra props/attrs, so only the defaults written in the source
appear.  `label.split('||')[0]` is modelled by `headD ""` (a JS split of a
string is never empty, so the `chapterText === null` test in the source is
always false); `label.split('||')[1]` by the optional second element. -/
def MenuItem.createEl (label : String) : CreateElOut :=
  let el := superCreateEl "li" "vjs-menu-item" "" (some (-1))
  let chapterEditButtonEl : Span := ⟨"vjs-menu-item-chapter-edit-button", ""⟩
  let chapterText := (jsSplitPipes label).headD ""
  let chapterStartTime := (jsSplitPipes label)[1]?
  let isChapterNameEmpty := jsTrim chapterText = ""
  if isChapterNameEmpty then
    { el := superCreateEl "li" "" "display: none;" none, editWiring := none }
  else
    let chapterEvent : ChapterEvent := ⟨"chapterEditEvent", chapterText⟩
    let el := { el with children := chapterEditButtonEl :: el.children }
    let el := { el with
      children := replaceIconWithText ⟨"vjs-menu-item-text", localize chapterText⟩ el.children }
    let el := match chapterStartTime with
      | none => el
      | some st =>
        if st = "" then el
        else { el with
          children := el.children ++ [⟨"vjs-menu-item-chapter-starttime", localize st⟩] }
    { el := el, editWiring := some chapterEvent }

/-- The options record passed to the constructor (§6 construction
contract). -/
structure MenuItemOptions where
  label : String
  selectable : Bool
  multiSelectable : Bool
  selected : Bool
deriving DecidableEq

/-- Instance state of a `MenuItem`: the option-derived flags, the internal
selection flag `isSelected_`, the owned element `el_`, and the accessible
control text (modelled from the spec §6: the accessible-text getter/setter
of the base control, not under `src/`, stores the screen-reader hint). -/
structure MenuItemState where
  selectable : Bool
  multiSelectable : Bool
  isSelected_ : Bool
  el_ : El
  controlText_ : String
deriving DecidableEq

/-- `MenuItem#selected(selected)` (menu-item.js, lines 151-168): the
selection state machine.  The guard re-inspects the live markup for the
substring `-chapter-` on every call. -/
def MenuItem.selected (m : MenuItemState) (sel : Bool) : MenuItemState :=
  if m.selectable then
    if sel && !(strContains (outerHTML m.el_) "-chapter-") then
      { m with
        el_ := setAttr (addClass m.el_ "vjs-selected") "aria-checked" "true"
        controlText_ := ", selected"
        isSelected_ := true }
    else
      { m with
        el_ := setAttr (removeClass m.el_ "vjs-selected") "aria-checked" "false"
        controlText_ := ""
        isSelected_ := false }
  else m

/-- The `MenuItem` constructor (menu-item.js, lines 29-47): the base
`Component` constructor builds the element via `createEl`, then the flags
are stored, `selected(isSelected_)` runs, and the role attribute is set. -/
def MenuItem.init (options : MenuItemOptions) : MenuItemState :=
  let created := MenuItem.createEl options.label
  let m : MenuItemState :=
    { selectable := options.selectable
      multiSelectable := options.multiSelectable
      isSelected_ := options.selected || false
      el_ := created.el
      controlText_ := "" }
  let m := MenuItem.selected m m.isSelected_
  if m.selectable then
    if m.multiSelectable then { m with el_ := setAttr m.el_ "role" "menuitemcheckbox" }
    else { m with el_ := setAttr m.el_ "role" "menuitemradio" }
  else { m with el_ := setAttr m.el_ "role" "menuitem" }

/-- Iterate `selected` over a list of requested values: a sequence of
`setSelected` calls. -/
def applySelectedCalls (m : MenuItemState) (calls : List Bool) : MenuItemState :=
  calls.foldl MenuItem.selected m

/-- A keyboard event, identified by the key it carries. -/
structure KeyEvent where
  key : String
deriving DecidableEq

/-- Modelled from the spec: `keycode.isEventKey(event, key)` — whether the
event's pressed key matches the named key (external `keycode`
collaborator). -/
def isEventKey (event : KeyEvent) (key : String) : Bool := event.key == key

/-- `MenuItem#handleKeyDown(event)` (menu-item.js, lines 123-128), returning
how many times `super.handleKeyDown` is invoked — the only effect of the
method.  `menuKeys` is the parent menu's reserved navigation key set
(`MenuKeys`, an external collaborator per spec §6). -/
def MenuItem.handleKeyDown (menuKeys : List String) (event : KeyEvent) : Nat :=
  if !(menuKeys.any fun key => isEventKey event key) then 1 else 0

/-- `window.dispatchEvent`: append the event to the process-wide dispatch
log; the dispatch is synchronous, so it is complete when the handler
returns its log. -/
def dispatchEvent (log : List ChapterEvent) (ev : ChapterEvent) : List ChapterEvent := log ++ [ev]

/-- The `click` listener attached to the edit button (menu-item.js, lines
91-93): dispatch the wired chapter event.  When no wiring exists (the
empty-name branch returned before registering listeners) an activation
leaves the log unchanged. -/
def handleEditButtonClick (out : CreateElOut) (log : List ChapterEvent) : List ChapterEvent :=
  match out.editWiring with
  | some ev => dispatchEvent log ev
  | none => log

/-- The `touchstart` listener attached to the edit button (menu-item.js,
lines 95-97). -/
def handleEditButtonTouchstart (out : CreateElOut) (log : List ChapterEvent) : List ChapterEvent :=
  match out.editWiring with
  | some ev => dispatchEvent log ev
  | none => log

theorem str_data_append (a b : String) : (a ++ b).data = a.data ++ b.data := by
  cases a; cases b; rfl

theorem strContains_iff {s pat : String} : strContains s pat = true ↔ pat.data <:+: s.data := by
  simp [strContains]

theorem infix_append_of_infix_left {l x y : List Char} (h : l <:+: x) : l <:+: x ++ y :=
  h.trans (List.prefix_append x y).isInfix

theorem infix_append_of_infix_right {l x y : List Char} (h : l <:+: y) : l <:+: x ++ y :=
  h.trans (List.suffix_append x y).isInfix

theorem getAttrList_setAttrList_self (l : List (String × String)) (n v : String) :
    getAttrList (setAttrList l n v) n = some v := by
  induction l with
  | nil => simp [setAttrList, getAttrList]
  | cons p rest ih =>
    obtain ⟨m, w⟩ := p
    by_cases h : m = n
    · simp [setAttrList, getAttrList, h]
    · simp [setAttrList, getAttrList, h, ih]

theorem getAttrList_setAttrList_ne (l : List (String × String)) (n v n' : String) (h : n' ≠ n) :
    getAttrList (setAttrList l n v) n' = getAttrList l n' := by
  induction l with
  | nil => simp [setAttrList, getAttrList, Ne.symm h]
  | cons p rest ih =>
    obtain ⟨m, w⟩ := p
    by_cases hm : m = n
    · subst hm
      simp [setAttrList, getAttrList, Ne.symm h]
    · by_cases hm' : m = n'
      · subst hm'
        simp [setAttrList, getAttrList, hm]
      · simp [setAttrList, getAttrList, hm, hm', ih]

@[simp] theorem setAttr_children (el : El) (n v : String) :
    (setAttr el n v).children = el.children := rfl

@[simp] theorem setAttr_classes (el : El) (n v : String) :
    (setAttr el n v).classes = el.classes := rfl

@[simp] theorem removeClass_children (el : El) (c : String) :
    (removeClass el c).children = el.children := rfl

@[simp] theorem removeClass_attrs (el : El) (c : String) :
    (removeClass el c).attrs = el.attrs := rfl

@[simp] theorem addClass_children (el : El) (c : String) :
    (addClass el c).children = el.children := by
  unfold addClass; split <;> rfl

@[simp] theorem addClass_attrs (el : El) (c : String) :
    (addClass el c).attrs = el.attrs := by
  unfold addClass; split <;> rfl

theorem getAttr_setAttr_self (el : El) (n v : String) :
    getAttr (setAttr el n v) n = some v :=
  getAttrList_setAttrList_self el.attrs n v

theorem getAttr_setAttr_ne (el : El) (n v n' : String) (h : n' ≠ n) :
    getAttr (setAttr el n v) n' = getAttr el n' :=
  getAttrList_setAttrList_ne el.attrs n v n' h

theorem getAttr_addClass (el : El) (c n : String) :
    getAttr (addClass el c) n = getAttr el n := by
  unfold getAttr
  rw [addClass_attrs]

theorem getAttr_removeClass (el : El) (c n : String) :
    getAttr (removeClass el c) n = getAttr el n := rfl

theorem className_infix_renderSpan (sp : Span) :
    sp.className.data <:+: (renderSpan sp).data := by
  unfold renderSpan
  simp only [str_data_append]
  exact infix_append_of_infix_left (infix_append_of_infix_left (List.infix_append _ _ _))

theorem renderSpan_infix_renderSpans {sp : Span} {l : List Span} (h : sp ∈ l) :
    (renderSpan sp).data <:+: (renderSpans l).data := by
  induction l with
  | nil => cases h
  | cons hd tl ih =>
    rw [renderSpans, str_data_append]
    rcases List.mem_cons.mp h with rfl | h
    · exact infix_append_of_infix_left List.infix_rfl
    · exact infix_append_of_infix_right (ih h)

theorem renderSpans_infix_outerHTML (el : El) :
    (renderSpans el.children).data <:+: (outerHTML el).data := by
  unfold outerHTML
  simp only [str_data_append]
  exact List.infix_append _ _ _

/-- Some child span's class name contains the chapter marker substring: the
stable witness behind the `outerHTML.includes('-chapter-')` test. -/
def childHasChapter (el : El) : Bool :=
  el.children.any fun sp => strContains sp.className "-chapter-"

theorem containsChapter_of_child {el : El} (h : childHasChapter el = true) :
    strContains (outerHTML el) "-chapter-" = true := by
  obtain ⟨sp, hmem, hsp⟩ := List.any_eq_true.mp h
  exact strContains_iff.mpr
    (((strContains_iff.mp hsp).trans (className_infix_renderSpan sp)).trans
      ((renderSpan_infix_renderSpans hmem).trans (renderSpans_infix_outerHTML el)))

@[simp] theorem selected_selectable (m : MenuItemState) (b : Bool) :
    (MenuItem.selected m b).selectable = m.selectable := by
  unfold MenuItem.selected
  split
  · split <;> rfl
  · rfl

@[simp] theorem selected_multiSelectable (m : MenuItemState) (b : Bool) :
    (MenuItem.selected m b).multiSelectable = m.multiSelectable := by
  unfold MenuItem.selected
  split
  · split <;> rfl
  · rfl

@[simp] theorem selected_children (m : MenuItemState) (b : Bool) :
    (MenuItem.selected m b).el_.children = m.el_.children := by
  unfold MenuItem.selected
  split
  · split <;> simp
  · rfl

theorem getAttr_selected_role (m : MenuItemState) (b : Bool) :
    getAttr (MenuItem.selected m b).el_ "role" = getAttr m.el_ "role" := by
  unfold MenuItem.selected
  split
  · split <;>
      simp only [getAttr_setAttr_ne _ _ _ _ (by decide : "role" ≠ "aria-checked"),
        getAttr_addClass, getAttr_removeClass]
  · rfl

theorem selected_of_not_selectable {m : MenuItemState} (h : m.selectable = false) (b : Bool) :
    MenuItem.selected m b = m := by
  unfold MenuItem.selected
  simp [h]

theorem selected_deselect {m : MenuItemState} (h : m.selectable = true)
    (hc : strContains (outerHTML m.el_) "-chapter-" = true) (b : Bool) :
    MenuItem.selected m b =
      { m with
        el_ := setAttr (removeClass m.el_ "vjs-selected") "aria-checked" "false"
        controlText_ := ""
        isSelected_ := false } := by
  unfold MenuItem.selected
  simp [h, hc]

theorem createEl_attrs (label : String) : (MenuItem.createEl label).el.attrs = [] := by
  simp only [MenuItem.createEl]
  split
  · rfl
  · split
    · rfl
    · split <;> rfl

theorem vjsSelected_not_mem_createEl (label : String) :
    "vjs-selected" ∉ (MenuItem.createEl label).el.classes := by
  simp only [MenuItem.createEl]
  split
  · simp [superCreateEl]
  · split
    · simp [superCreateEl]
    · split <;> simp [superCreateEl]

theorem createEl_children_of_nonempty {label : String}
    (h : ¬ jsTrim ((jsSplitPipes label).headD "") = "") :
    (MenuItem.createEl label).el.children =
      ⟨"vjs-menu-item-chapter-edit-button", ""⟩ ::
      ⟨"vjs-menu-item-text", localize ((jsSplitPipes label).headD "")⟩ ::
      (match (jsSplitPipes label)[1]? with
        | none => []
        | some st =>
          if st = "" then []
          else [⟨"vjs-menu-item-chapter-starttime", localize st⟩]) := by
  simp only [MenuItem.createEl]
  rw [if_neg h]
  split
  · simp [superCreateEl, replaceIconWithText, iconPlaceholder]
  · split <;> simp [superCreateEl, replaceIconWithText, iconPlaceholder]

theorem init_children (o : MenuItemOptions) :
    (MenuItem.init o).el_.children = (MenuItem.createEl o.label).el.children := by
  dsimp only [MenuItem.init]
  split
  · split <;> simp
  · simp

theorem getAttr_init_role (o : MenuItemOptions) :
    getAttr (MenuItem.init o).el_ "role" =
      some (if o.selectable then
              (if o.multiSelectable then "menuitemcheckbox" else "menuitemradio")
            else "menuitem") := by
  by_cases h1 : o.selectable
  · by_cases h2 : o.multiSelectable
    · simp [MenuItem.init, h1, h2, getAttr_setAttr_self]
    · simp [MenuItem.init, h1, h2, getAttr_setAttr_self]
  · simp [MenuItem.init, h1, getAttr_setAttr_self]

theorem applySelectedCalls_cons (m : MenuItemState) (b : Bool) (rest : List Bool) :
    applySelectedCalls m (b :: rest) = applySelectedCalls (MenuItem.selected m b) rest := rfl

theorem getAttr_applySelectedCalls_role (m : MenuItemState) (calls : List Bool) :
    getAttr (applySelectedCalls m calls).el_ "role" = getAttr m.el_ "role" := by
  induction calls generalizing m with
  | nil => rfl
  | cons b rest ih => rw [applySelectedCalls_cons, ih, getAttr_selected_role]

/-- Invariant of a chapter-variant item: the chapter marker sits in a child
span (so the markup test keeps firing), the selection class is absent, and
`aria-checked` is never `"true"`. -/
def NeverSel (m : MenuItemState) : Prop :=
  childHasChapter m.el_ = true ∧
    "vjs-selected" ∉ m.el_.classes ∧
    getAttr m.el_ "aria-checked" ≠ some "true"

theorem neverSel_preserved {m : MenuItemState} (h : NeverSel m) (b : Bool) :
    NeverSel (MenuItem.selected m b) := by
  obtain ⟨hch, hcl, har⟩ := h
  by_cases hs : m.selectable = true
  · rw [selected_deselect hs (containsChapter_of_child hch) b]
    refine ⟨?_, ?_, ?_⟩
    · unfold childHasChapter at hch ⊢
      simpa using hch
    · simp [removeClass]
    · rw [getAttr_setAttr_self]
      simp
  · rw [selected_of_not_selectable (by simpa using hs) b]
    exact ⟨hch, hcl, har⟩

theorem neverSel_setRole {m : MenuItemState} (h : NeverSel m) (r : String) :
    NeverSel { m with el_ := setAttr m.el_ "role" r } := by
  obtain ⟨hch, hcl, har⟩ := h
  refine ⟨?_, by simpa using hcl, ?_⟩
  · unfold childHasChapter at hch ⊢
    simpa using hch
  · rw [show getAttr (setAttr m.el_ "role" r) "aria-checked" = getAttr m.el_ "aria-checked" from
      getAttr_setAttr_ne _ _ _ _ (by decide)]
    exact har

theorem neverSel_init {o : MenuItemOptions}
    (h : childHasChapter (MenuItem.createEl o.label).el = true) :
    NeverSel (MenuItem.init o) := by
  have h0 : NeverSel
      { selectable := o.selectable, multiSelectable := o.multiSelectable,
        isSelected_ := o.selected || false, el_ := (MenuItem.createEl o.label).el,
        controlText_ := "" } := by
    refine ⟨h, vjsSelected_not_mem_createEl o.label, ?_⟩
    unfold getAttr
    rw [createEl_attrs]
    simp [getAttrList]
  have h1 := neverSel_preserved h0 (o.selected || false)
  dsimp only [MenuItem.init]
  split
  · split
    · exact neverSel_setRole h1 _
    · exact neverSel_setRole h1 _
  · exact neverSel_setRole h1 _

theorem neverSel_applyCalls {m : MenuItemState} (h : NeverSel m) (calls : List Bool) :
    NeverSel (applySelectedCalls m calls) := by
  induction calls generalizing m with
  | nil => exact h
  | cons b rest ih => exact ih (neverSel_preserved h b)

/-- Stronger invariant for selectable chapter-variant items: additionally
the internal flag stays `false` and the item stays selectable. -/
def NeverSelFlag (m : MenuItemState) : Prop :=
  NeverSel m ∧ m.isSelected_ = false ∧ m.selectable = true

theorem neverSelFlag_preserved {m : MenuItemState} (h : NeverSelFlag m) (b : Bool) :
    NeverSelFlag (MenuItem.selected m b) := by
  obtain ⟨hn, hflag, hsel⟩ := h
  refine ⟨neverSel_preserved hn b, ?_, by simp [hsel]⟩
  rw [selected_deselect hsel (containsChapter_of_child hn.1) b]

theorem childHasChapter_createEl_of_nonempty {label : String}
    (h : ¬ jsTrim ((jsSplitPipes label).headD "") = "") :
    childHasChapter (MenuItem.createEl label).el = true := by
  unfold childHasChapter
  rw [createEl_children_of_nonempty h]
  exact List.any_eq_true.mpr ⟨⟨"vjs-menu-item-chapter-edit-button", ""⟩, by simp, by decide⟩

theorem neverSelFlag_init {o : MenuItemOptions} (hsel : o.selectable = true)
    (h : childHasChapter (MenuItem.createEl o.label).el = true) :
    NeverSelFlag (MenuItem.init o) := by
  have h0 : NeverSel
      { selectable := o.selectable, multiSelectable := o.multiSelectable,
        isSelected_ := o.selected || false, el_ := (MenuItem.createEl o.label).el,
        controlText_ := "" } := by
    refine ⟨h, vjsSelected_not_mem_createEl o.label, ?_⟩
    unfold getAttr
    rw [createEl_attrs]
    simp [getAttrList]
  have h1 : NeverSelFlag
      (MenuItem.selected
        { selectable := o.selectable, multiSelectable := o.multiSelectable,
          isSelected_ := o.selected || false, el_ := (MenuItem.createEl o.label).el,
          controlText_ := "" } (o.selected || false)) := by
    refine ⟨neverSel_preserved h0 _, ?_, by simp [hsel]⟩
    rw [selected_deselect hsel (containsChapter_of_child h0.1) _]
  dsimp only [MenuItem.init]
  split
  · split
    · exact ⟨neverSel_setRole h1.1 _, h1.2.1, h1.2.2⟩
    · exact ⟨neverSel_setRole h1.1 _, h1.2.1, h1.2.2⟩
  · exact ⟨neverSel_setRole h1.1 _, h1.2.1, h1.2.2⟩

theorem neverSelFlag_applyCalls {m : MenuItemState} (h : NeverSelFlag m) (calls : List Bool) :
    NeverSelFlag (applySelectedCalls m calls) := by
  induction calls generalizing m with
  | nil => exact h
  | cons b rest ih => exact ih (neverSelFlag_preserved h b)

theorem not_containsChapter_init_of_empty (o : MenuItemOptions)
    (he : jsTrim ((jsSplitPipes o.label).headD "") = "") :
    strContains (outerHTML (MenuItem.init o).el_) "-chapter-" = false := by
  have hcreate : MenuItem.createEl o.label =
      { el := superCreateEl "li" "" "display: none;" none, editWiring := none } := by
    simp only [MenuItem.createEl]
    rw [if_pos he]
  simp only [MenuItem.init, hcreate]
  cases hs : o.selectable <;> cases hm : o.multiSelectable <;> cases hd : o.selected <;> decide

theorem selected_select {m : MenuItemState} (h : m.selectable = true)
    (hc : strContains (outerHTML m.el_) "-chapter-" = false) :
    MenuItem.selected m true =
      { m with
        el_ := setAttr (addClass m.el_ "vjs-selected") "aria-checked" "true"
        controlText_ := ", selected"
        isSelected_ := true } := by
  unfold MenuItem.selected
  simp [h, hc]

theorem mem_addClass_self (el : El) (c : String) : c ∈ (addClass el c).classes := by
  unfold addClass
  split
  · assumption
  · simp

theorem init_isSelected_eq (o : MenuItemOptions) :
    (MenuItem.init o).isSelected_ =
      (MenuItem.selected
        { selectable := o.selectable, multiSelectable := o.multiSelectable,
          isSelected_ := o.selected || false, el_ := (MenuItem.createEl o.label).el,
          controlText_ := "" } (o.selected || false)).isSelected_ := by
  dsimp only [MenuItem.init]
  split
  · split <;> rfl
  · rfl

theorem any_isEventKey_iff (menuKeys : List String) (event : KeyEvent) :
    (menuKeys.any fun key => isEventKey event key) = true ↔ event.key ∈ menuKeys := by
  rw [List.any_eq_true]
  constructor
  · rintro ⟨x, hx, he⟩
    have hxe : event.key = x := by simpa [isEventKey] using he
    rwa [hxe]
  · intro h
    exact ⟨event.key, h, by simp [isEventKey]⟩

/-- C1: for every selectable item whose rendered markup does not contain the
chapter marker, `setSelected(true)` enters the selected state: the class
`vjs-selected` is added, `aria-checked` is set to `"true"`, the accessible
control text carries the `", selected"` suffix, and the internal selected
flag becomes `true`. -/
theorem C1_select_nonchapter (m : MenuItemState) (hsel : m.selectable = true)
    (hnc : strContains (outerHTML m.el_) "-chapter-" = false) :
    "vjs-selected" ∈ (MenuItem.selected m true).el_.classes ∧
    getAttr (MenuItem.selected m true).el_ "aria-checked" = some "true" ∧
    (MenuItem.selected m true).controlText_ = ", selected" ∧
    (MenuItem.selected m true).isSelected_ = true := by
  rw [selected_select hsel hnc]
  refine ⟨?_, ?_, rfl, rfl⟩
  · show "vjs-selected" ∈ (setAttr (addClass m.el_ "vjs-selected") "aria-checked" "true").classes
    rw [setAttr_classes]
    exact mem_addClass_self m.el_ "vjs-selected"
  · exact getAttr_setAttr_self _ _ _

/-- Witness for C1 at a concrete input: a selectable item whose label has a
whitespace-only name part, so its markup (the hidden placeholder row) has no
chapter marker. -/
theorem C1_select_nonchapter_witness :
    "vjs-selected" ∈
      (MenuItem.selected (MenuItem.init ⟨"  ||00:00:10", true, false, false⟩) true).el_.classes ∧
    getAttr (MenuItem.selected (MenuItem.init ⟨"  ||00:00:10", true, false, false⟩) true).el_
      "aria-checked" = some "true" ∧
    (MenuItem.selected (MenuItem.init ⟨"  ||00:00:10", true, false, false⟩) true).controlText_ =
      ", selected" ∧
    (MenuItem.selected (MenuItem.init ⟨"  ||00:00:10", true, false, false⟩) true).isSelected_ =
      true :=
  C1_select_nonchapter (MenuItem.init ⟨"  ||00:00:10", true, false, false⟩)
    (by decide) (by decide)

/-- C2 counterexample: the item constructed from label `"Intro||00:00:10"`
with `selectable = false` and `selected = true` has the chapter marker in its
markup, yet after `setSelected(true)` its internal selected flag is `true`
and no `aria-checked` attribute exists at all — `setSelected(true)` took
neither branch (the method is a no-op for non-selectable items), so the
claim's "takes the deselect branch" and "the internal selected flag never
becomes true" fail for this item. -/
theorem C2_counterexample :
    strContains
      (outerHTML (MenuItem.init ⟨"Intro||00:00:10", false, false, true⟩).el_) "-chapter-" = true ∧
    (MenuItem.selected (MenuItem.init ⟨"Intro||00:00:10", false, false, true⟩) true).isSelected_ =
      true ∧
    getAttr (MenuItem.selected (MenuItem.init ⟨"Intro||00:00:10", false, false, true⟩) true).el_
      "aria-checked" = none := by
  decide

/-- C2 (amended): for every item constructed with `selectable = true` and a
label whose primary part is non-empty after trimming, `createEl` prepends the
span with class `vjs-menu-item-chapter-edit-button`; after construction and
any sequence of `setSelected` calls the markup still contains `-chapter-`
(so every call classifies the item as a chapter variant and takes the
deselect branch), the class `vjs-selected` is absent, `aria-checked` is
never `"true"`, and the internal selected flag is `false`. -/
theorem C2_amended (o : MenuItemOptions) (calls : List Bool) (hsel : o.selectable = true)
    (hne : ¬ jsTrim ((jsSplitPipes o.label).headD "") = "") :
    (MenuItem.createEl o.label).el.children.head? =
      some ⟨"vjs-menu-item-chapter-edit-button", ""⟩ ∧
    strContains (outerHTML (applySelectedCalls (MenuItem.init o) calls).el_) "-chapter-" = true ∧
    "vjs-selected" ∉ (applySelectedCalls (MenuItem.init o) calls).el_.classes ∧
    getAttr (applySelectedCalls (MenuItem.init o) calls).el_ "aria-checked" ≠ some "true" ∧
    (applySelectedCalls (MenuItem.init o) calls).isSelected_ = false := by
  have hch := childHasChapter_createEl_of_nonempty hne
  obtain ⟨⟨h1, h2, h3⟩, h4, h5⟩ := neverSelFlag_applyCalls (neverSelFlag_init hsel hch) calls
  refine ⟨?_, containsChapter_of_child h1, h2, h3, h4⟩
  rw [createEl_children_of_nonempty hne]
  rfl

/-- Witness for C2 (amended) at a concrete input: a selectable,
multi-selectable item with label `"Intro||00:00:10"` configured selected,
after the call sequence `setSelected(true); setSelected(true)`. -/
theorem C2_amended_witness :
    (MenuItem.createEl "Intro||00:00:10").el.children.head? =
      some ⟨"vjs-menu-item-chapter-edit-button", ""⟩ ∧
    strContains
      (outerHTML
        (applySelectedCalls (MenuItem.init ⟨"Intro||00:00:10", true, true, true⟩)
          [true, true]).el_) "-chapter-" = true ∧
    "vjs-selected" ∉
      (applySelectedCalls (MenuItem.init ⟨"Intro||00:00:10", true, true, true⟩)
        [true, true]).el_.classes ∧
    getAttr
      (applySelectedCalls (MenuItem.init ⟨"Intro||00:00:10", true, true, true⟩)
        [true, true]).el_ "aria-checked" ≠ some "true" ∧
    (applySelectedCalls (MenuItem.init ⟨"Intro||00:00:10", true, true, true⟩)
      [true, true]).isSelected_ = false :=
  C2_amended ⟨"Intro||00:00:10", true, true, true⟩ [true, true] (by decide) (by decide)

/-- C3: for every constructed item whose rendered markup contains the
chapter marker, no sequence of `setSelected` calls — in particular
`setSelected(true)` — ever results in `aria-checked="true"` or in the class
`vjs-selected` being present on the element. -/
theorem C3_chapter_never_visibly_selected (o : MenuItemOptions) (calls : List Bool)
    (h : strContains (outerHTML (MenuItem.init o).el_) "-chapter-" = true) :
    "vjs-selected" ∉ (applySelectedCalls (MenuItem.init o) calls).el_.classes ∧
    getAttr (applySelectedCalls (MenuItem.init o) calls).el_ "aria-checked" ≠ some "true" := by
  by_cases hne : jsTrim ((jsSplitPipes o.label).headD "") = ""
  · rw [not_containsChapter_init_of_empty o hne] at h
    cases h
  · have hinv :=
      neverSel_applyCalls (neverSel_init (childHasChapter_createEl_of_nonempty hne)) calls
    exact ⟨hinv.2.1, hinv.2.2⟩

/-- Witness for C3 at a concrete input: a selectable chapter-variant item
(label `"Intro||00:00:10"`) after the calls `setSelected(true);
setSelected(false); setSelected(true)`. -/
theorem C3_chapter_never_visibly_selected_witness :
    "vjs-selected" ∉
      (applySelectedCalls (MenuItem.init ⟨"Intro||00:00:10", true, false, true⟩)
        [true, false, true]).el_.classes ∧
    getAttr
      (applySelectedCalls (MenuItem.init ⟨"Intro||00:00:10", true, false, true⟩)
        [true, false, true]).el_ "aria-checked" ≠ some "true" :=
  C3_chapter_never_visibly_selected ⟨"Intro||00:00:10", true, false, true⟩
    [true, false, true] (by decide)

/-- C4 counterexample: with configuration `selectable = true`,
`multiSelectable = false`, `selected = true` and label `"Intro||00:00:10"`,
the internal selected state immediately after construction is `false`, not
the configured `true`: the constructor's own `selected(true)` call sees the
chapter marker in the markup and takes the deselect branch. -/
theorem C4_counterexample :
    ¬ ((MenuItem.init ⟨"Intro||00:00:10", true, false, true⟩).isSelected_ =
        (⟨"Intro||00:00:10", true, false, true⟩ : MenuItemOptions).selected) := by
  decide

/-- C4 (amended): the internal selected state immediately after construction
equals the configured `selected` value masked by the chapter-variant test
when the item is selectable — i.e. it equals `selected` exactly, except that
it is forced to `false` when the item is selectable and its created markup
contains the chapter marker. -/
theorem C4_amended (o : MenuItemOptions) :
    (MenuItem.init o).isSelected_ =
      if o.selectable then
        o.selected && !(strContains (outerHTML (MenuItem.createEl o.label).el) "-chapter-")
      else o.selected := by
  rw [init_isSelected_eq]
  cases hs : o.selectable <;> cases hd : o.selected <;>
    cases hc : strContains (outerHTML (MenuItem.createEl o.label).el) "-chapter-" <;>
      simp [MenuItem.selected, hs, hd, hc]

/-- C5: for every item state with `selectable = false`, any sequence of
`setSelected` calls is a complete no-op: the whole state — in particular the
class list (selection CSS class), the `aria-checked` attribute and the
accessible-text suffix — is unchanged from its state before the calls. -/
theorem C5_not_selectable_noop (m : MenuItemState) (calls : List Bool)
    (h : m.selectable = false) :
    applySelectedCalls m calls = m ∧
    (applySelectedCalls m calls).el_.classes = m.el_.classes ∧
    getAttr (applySelectedCalls m calls).el_ "aria-checked" = getAttr m.el_ "aria-checked" ∧
    (applySelectedCalls m calls).controlText_ = m.controlText_ := by
  have key : applySelectedCalls m calls = m := by
    induction calls with
    | nil => rfl
    | cons b rest ih => rw [applySelectedCalls_cons, selected_of_not_selectable h, ih]
  exact ⟨key, by rw [key], by rw [key], by rw [key]⟩

/-- Witness for C5 at a concrete input: a non-selectable item (label
`"Intro||00:00:10"`, configured selected) after the calls
`setSelected(true); setSelected(false)`. -/
theorem C5_not_selectable_noop_witness :
    applySelectedCalls (MenuItem.init ⟨"Intro||00:00:10", false, true, true⟩) [true, false] =
      MenuItem.init ⟨"Intro||00:00:10", false, true, true⟩ :=
  (C5_not_selectable_noop (MenuItem.init ⟨"Intro||00:00:10", false, true, true⟩)
    [true, false] (by decide)).1

/-- C6 counterexample: with `selectable = false` and `multiSelectable = true`
the constructor sets role `"menuitem"`, not `"menuitemcheckbox"` as the
claim's clause "value 'menuitemcheckbox' when multiSelectable=true"
demands. -/
theorem C6_counterexample :
    (⟨"Intro||00:00:10", false, true, false⟩ : MenuItemOptions).multiSelectable = true ∧
    getAttr (MenuItem.init ⟨"Intro||00:00:10", false, true, false⟩).el_ "role" =
      some "menuitem" ∧
    getAttr (MenuItem.init ⟨"Intro||00:00:10", false, true, false⟩).el_ "role" ≠
      some "menuitemcheckbox" := by
  decide

/-- C6 (amended): the role attribute is set at construction — to
`menuitemcheckbox` when `selectable = true` and `multiSelectable = true`, to
`menuitemradio` when `selectable = true` and `multiSelectable = false`, and
to `menuitem` when `selectable = false` — and it is invariant under any
later sequence of `setSelected` calls. -/
theorem C6_amended (o : MenuItemOptions) (calls : List Bool) :
    getAttr (MenuItem.init o).el_ "role" =
      some (if o.selectable then
              (if o.multiSelectable then "menuitemcheckbox" else "menuitemradio")
            else "menuitem") ∧
    getAttr (applySelectedCalls (MenuItem.init o) calls).el_ "role" =
      getAttr (MenuItem.init o).el_ "role" :=
  ⟨getAttr_init_role o, getAttr_applySelectedCalls_role _ calls⟩

/-- C7: a keydown whose key is in the menu's reserved-key set never reaches
`super.handleKeyDown` (zero base-handler invocations — the event is fully
consumed); a keydown with any other key is delegated to the base handler
exactly once. -/
theorem C7_keydown_routing (menuKeys : List String) (event : KeyEvent) :
    (event.key ∈ menuKeys → MenuItem.handleKeyDown menuKeys event = 0) ∧
    (event.key ∉ menuKeys → MenuItem.handleKeyDown menuKeys event = 1) := by
  refine ⟨fun h => ?_, fun h => ?_⟩
  · unfold MenuItem.handleKeyDown
    rw [(any_isEventKey_iff menuKeys event).mpr h]
    rfl
  · unfold MenuItem.handleKeyDown
    rw [show (menuKeys.any fun key => isEventKey event key) = false from
      Bool.eq_false_iff.mpr fun hc => h ((any_isEventKey_iff menuKeys event).mp hc)]
    rfl

/-- Witness for C7 at concrete inputs: with reserved keys Left/Right/Up/Down,
a `Left` keydown is consumed and an `Enter` keydown is delegated once. -/
theorem C7_keydown_routing_witness :
    MenuItem.handleKeyDown ["Left", "Right", "Up", "Down"] ⟨"Left"⟩ = 0 ∧
    MenuItem.handleKeyDown ["Left", "Right", "Up", "Down"] ⟨"Enter"⟩ = 1 :=
  ⟨(C7_keydown_routing ["Left", "Right", "Up", "Down"] ⟨"Left"⟩).1 (by decide),
    (C7_keydown_routing ["Left", "Right", "Up", "Down"] ⟨"Enter"⟩).2 (by decide)⟩

/-- C8 counterexample: for label `"A||B||C"` the rendered secondary span
carries `"B"` — `split('||')[1]`, the segment between the first and second
`||` — not `"B||C"` (i.e. not "everything after the first '||'"); indeed no
rendered span carries the text `"B||C"`. -/
theorem C8_counterexample :
    (MenuItem.createEl "A||B||C").el.children =
      [⟨"vjs-menu-item-chapter-edit-button", ""⟩, ⟨"vjs-menu-item-text", "A"⟩,
        ⟨"vjs-menu-item-chapter-starttime", "B"⟩] ∧
    ∀ sp ∈ (MenuItem.createEl "A||B||C").el.children, sp.textContent ≠ "B||C" := by
  decide

/-- C8 (amended): `createEl` splits the label at `||` into `primaryText`
(the text before the first `||`) and an optional `secondaryText` — the
second segment of the split, i.e. the text between the first and the second
`||`; for non-empty primary text it renders the edit-button span, a text
span with the localized primary text, and a secondary annotation span,
appended exactly when the second segment is present and non-empty (so
`"Intro||00:00:10"` yields text `"Intro"` and secondary text
`"00:00:10"`). -/
theorem C8_amended (label : String)
    (h : ¬ jsTrim ((jsSplitPipes label).headD "") = "") :
    (MenuItem.createEl label).el.children =
      ⟨"vjs-menu-item-chapter-edit-button", ""⟩ ::
      ⟨"vjs-menu-item-text", localize ((jsSplitPipes label).headD "")⟩ ::
      (match (jsSplitPipes label)[1]? with
        | none => []
        | some st =>
          if st = "" then []
          else [⟨"vjs-menu-item-chapter-starttime", localize st⟩]) :=
  createEl_children_of_nonempty h

/-- Witness for C8 (amended) at the concrete label `"Intro||00:00:10"`. -/
theorem C8_amended_witness :
    (MenuItem.createEl "Intro||00:00:10").el.children =
      [⟨"vjs-menu-item-chapter-edit-button", ""⟩, ⟨"vjs-menu-item-text", "Intro"⟩,
        ⟨"vjs-menu-item-chapter-starttime", "00:00:10"⟩] := by
  rw [C8_amended "Intro||00:00:10" (by decide)]
  decide

/-- C9: for every label whose primary part (before the first `||`) is empty
or all-whitespace, `createEl` returns the minimal hidden placeholder row and
stops: a hidden `li` with no attributes, no classes, no edit-affordance
span, no text span and no secondary span (its only child is the
base-supplied generic icon placeholder), and no edit event wired. -/
theorem C9_empty_placeholder (label : String)
    (h : jsTrim ((jsSplitPipes label).headD "") = "") :
    (MenuItem.createEl label).el.styleProp = "display: none;" ∧
    (MenuItem.createEl label).el.attrs = [] ∧
    (MenuItem.createEl label).el.classes = [] ∧
    (MenuItem.createEl label).el.children = [iconPlaceholder] ∧
    (MenuItem.createEl label).editWiring = none := by
  have hcreate : MenuItem.createEl label =
      { el := superCreateEl "li" "" "display: none;" none, editWiring := none } := by
    simp only [MenuItem.createEl]
    rw [if_pos h]
  rw [hcreate]
  decide

/-- Witness for C9 at the concrete label `"  ||00:00:10"` (whitespace-only
name part). -/
theorem C9_empty_placeholder_witness :
    (MenuItem.createEl "  ||00:00:10").el.styleProp = "display: none;" ∧
    (MenuItem.createEl "  ||00:00:10").el.attrs = [] ∧
    (MenuItem.createEl "  ||00:00:10").el.classes = [] ∧
    (MenuItem.createEl "  ||00:00:10").el.children = [iconPlaceholder] ∧
    (MenuItem.createEl "  ||00:00:10").editWiring = none :=
  C9_empty_placeholder "  ||00:00:10" (by decide)

/-- C10: for every label with non-empty primary text, each activation of the
edit-affordance control — by click or by touchstart — dispatches exactly one
`chapterEditEvent` with payload `{chapter: primaryText}` onto the
process-wide dispatch log: the handler returns the log extended by exactly
that one event, so the dispatch is complete when the handler returns. -/
theorem C10_edit_dispatch (label : String)
    (h : ¬ jsTrim ((jsSplitPipes label).headD "") = "") (log : List ChapterEvent) :
    handleEditButtonClick (MenuItem.createEl label) log =
      log ++ [⟨"chapterEditEvent", (jsSplitPipes label).headD ""⟩] ∧
    handleEditButtonTouchstart (MenuItem.createEl label) log =
      log ++ [⟨"chapterEditEvent", (jsSplitPipes label).headD ""⟩] := by
  have hw : (MenuItem.createEl label).editWiring =
      some ⟨"chapterEditEvent", (jsSplitPipes label).headD ""⟩ := by
    simp only [MenuItem.createEl]
    rw [if_neg h]
  exact ⟨by rw [handleEditButtonClick, hw]; rfl, by rw [handleEditButtonTouchstart, hw]; rfl⟩

/-- Witness for C10 at the concrete label `"Intro||00:00:10"` and the empty
dispatch log: both activations dispatch exactly
`{chapter: "Intro"}`. -/
theorem C10_edit_dispatch_witness :
    handleEditButtonClick (MenuItem.createEl "Intro||00:00:10") [] =
      [⟨"chapterEditEvent", "Intro"⟩] ∧
    handleEditButtonTouchstart (MenuItem.createEl "Intro||00:00:10") [] =
      [⟨"chapterEditEvent", "Intro"⟩] := by
  refine ⟨?_, ?_⟩
  · rw [(C10_edit_dispatch "Intro||00:00:10" (by decide) []).1]
    decide
  · rw [(C10_edit_dispatch "Intro||00:00:10" (by decide) []).2]
    decide

end VideoJs
